import Mathlib

/-!
# Yokogawa DVM serial-to-MQTT bridge (`src/main.cpp`)

A shallow embedding of the bridge firmware and the properties of its
protocol logic.

Conventions of the embedding.

* An Arduino `String` is modelled by a Lean `String`, one `Char` per byte.
  The identity, the broker address and the topic names are read back from the
  store or built from literals, and the network address is printed text: they
  are C strings already and `c_str()` returns them whole.  The line received
  from the instrument can hold any byte; for it and for its parts `c_str()`
  is `c_str`, which stops at the first NUL byte.
* `unsigned long` is a natural number below `2 ^ 32`, `long` a signed 32-bit
  integer (the target is the 32-bit ESP32 of the WT32-ETH01 board); `char` is
  an unsigned 8-bit type under the ABI of that target.
* The globals of `main.cpp`, the durable store behind `preferences`, and the
  connection state of `client` are the fields of one `State`.
* Everything the firmware does on the instrument line (`Serial1`), on the
  messaging session (`client`), and every `delay`, is appended to
  `State.trace`, in program order.  Output on the debug console (`Serial`)
  and the network bring-up (`ETH`, `WT32_ETH01_*`) are not part of the
  bridge protocol and are left out.
* What the outside world answers is given by an `Env`: the line (or silence)
  the instrument returns to each query, the outcome of each connect and
  publish, what each `client.loop()` delivers, and the library functions
  used on JSON text and on numbers.
-/

namespace DvmBridge

/-! ## Durable store (`Preferences`, namespace `"mqtt-app"`) -/

/-- A value held under a key of the durable store. -/
inductive PrefValue where
  | str (s : String)
  | ulong (n : Nat)
  deriving DecidableEq, Repr

/-- The entries of the namespace `"mqtt-app"`. -/
abbrev Preferences := List (String × PrefValue)

namespace Preferences

/-- Models `preferences.clear()`: remove every entry. -/
def clear (_p : Preferences) : Preferences := []

/-- Write `v` under `key`, replacing an entry of that key. -/
def put (p : Preferences) (key : String) (v : PrefValue) : Preferences :=
  p.filter (fun e => e.1 != key) ++ [(key, v)]

/-- Models `preferences.putString(key, value)`. -/
def putString (p : Preferences) (key value : String) : Preferences :=
  put p key (.str value)

/-- Models `preferences.putULong(key, value)`: the value is stored as 32 bits. -/
def putULong (p : Preferences) (key : String) (value : Nat) : Preferences :=
  put p key (.ulong (value % 2 ^ 32))

/-- Models `preferences.getString(key, defaultValue)`: the default is returned when
the key is absent or does not hold a string. -/
def getString (p : Preferences) (key defaultValue : String) : String :=
  match p.lookup key with
  | some (.str s) => s
  | _ => defaultValue

/-- Models `preferences.getULong(key, defaultValue)`. -/
def getULong (p : Preferences) (key : String) (defaultValue : Nat) : Nat :=
  match p.lookup key with
  | some (.ulong n) => n
  | _ => defaultValue

end Preferences

/-! ## JSON documents (`JsonDocument configJson`) -/

/-- A member value of a JSON document. -/
inductive JsonValue where
  /-- A JSON string. -/
  | str (s : String)
  /-- A non-negative integer literal. -/
  | uint (n : Nat)
  /-- A value of any other kind (null, boolean, negative or fractional number,
  array, object), given by its JSON text and by what the library makes of it
  when it is converted to `unsigned long`. -/
  | other (text : String) (asNumber : Nat)
  deriving DecidableEq, Repr

/-- The members of the root object of a document. -/
abbrev JsonDocument := List (String × JsonValue)

/-- Models `doc[key] = value`. -/
def JsonDocument.set (doc : JsonDocument) (key : String) (v : JsonValue) : JsonDocument :=
  doc.filter (fun e => e.1 != key) ++ [(key, v)]

/-! ## Trace and environment -/

/-- What the firmware does on its two boundaries. -/
inductive Event where
  /-- Models `Serial1.write(b)`. -/
  | serial1Write (byte : Nat)
  /-- Models `Serial1.println(text)`: the text followed by the line terminator. -/
  | serial1Println (text : String)
  /-- Models `delay(ms)`. -/
  | delay (ms : Nat)
  /-- Models `client.connect(clientId, "", "")` towards the server set by the last
  `client.setServer`, and its outcome. -/
  | connect (host : String) (port : Nat) (clientId : String) (ok : Bool)
  /-- Models `client.disconnect()`. -/
  | disconnect
  /-- Models `client.subscribe(topic)`. -/
  | subscribe (topic : String)
  /-- Models `client.publish(topic, payload)` and its outcome. -/
  | publish (topic payload : String) (ok : Bool)
  /-- The `sprintf` of line 172 has written a text of `length` characters, with
  `length > 31`, past the end of `valueBuffer[32]`. -/
  | overrun (length : Nat)
  deriving DecidableEq, Repr

/-- The world outside the firmware. -/
structure Env where
  /-- Models `ETH.localIP().toString()`. -/
  localIP : String
  /-- Answer of the instrument to the k-th query: `none` when
  `Serial1.available()` is still 0 after the settle delay, otherwise the line
  `Serial1.readStringUntil` returns. -/
  instrument : Nat → Option String
  /-- Outcome of the k-th `client.connect`. -/
  connectOk : Nat → Bool
  /-- Whether the broker side accepts the k-th `client.publish`. -/
  publishOk : Nat → Bool
  /-- The (topic, payload) frames the k-th `client.loop()` hands to `callback`. -/
  inbound : Nat → List (String × String)
  /-- Whether the k-th `client.loop()` finds the session lost. -/
  linkLost : Nat → Bool
  /-- Models `deserializeJson`: the document left in `configJson` by parsing a text
  (the document is cleared first, so it depends on the text alone). -/
  deserializeJson : String → JsonDocument
  /-- Models `serializeJson`. -/
  serializeJson : JsonDocument → String
  /-- Conversion of a JSON string value to `unsigned long`. -/
  parseNumber : String → Nat
  /-- The text that `"%.8f"` gives for `atof(text)`, at its full length. -/
  formatValue : String → String

/-- The firmware state: the globals of `main.cpp`, the durable store, the
messaging client, the positions reached in the answers of `Env`, the trace. -/
structure State where
  mqttServer : String
  ID : String
  mqtt_publish_interval : Nat
  updateInterval : Int
  cmdTopic : String
  configTopic : String
  datarawTopic : String
  datavalueTopic : String
  datamodeTopic : String
  stateIDTopic : String
  stateIPAddrTopic : String
  statestatusTopic : String
  stateconfigTopic : String
  cmdReceived : Bool
  cmdIncoming : String
  configReceived : Bool
  configIncoming : String
  configJson : JsonDocument
  /-- Content of the durable store. -/
  preferences : Preferences
  /-- Models `client.connected()`. -/
  connected : Bool
  /-- Server set by `client.setServer`. -/
  clientHost : String
  clientPort : Nat
  /-- Number of instrument queries, connects, publishes and `client.loop()`
  calls made so far. -/
  nQuery : Nat
  nConnect : Nat
  nPublish : Nat
  nLoop : Nat
  trace : List Event

/-- The globals as initialised at lines 37-65, on top of a given durable
store: the state in which `setup` starts after power-up. -/
def boot (store : Preferences) : State where
  mqttServer := "0.0.0.0"
  ID := "unconfigured"
  mqtt_publish_interval := 6000
  updateInterval := 6000
  cmdTopic := "lab/machines/orphan/CMD"
  configTopic := "lab/machines/orphan/CONFIG"
  datarawTopic := "lab/machines/orphan/DATA/raw"
  datavalueTopic := "lab/machines/orphan/DATA/value"
  datamodeTopic := "lab/machines/orphan/DATA/mode"
  stateIDTopic := "lab/machines/orphan/STATE/id"
  stateIPAddrTopic := "lab/machines/orphan/STATE/IPAddr"
  statestatusTopic := "lab/machines/orphan/STATE/status"
  stateconfigTopic := "lab/machines/orphan/STATE/config"
  cmdReceived := false
  cmdIncoming := ""
  configReceived := false
  configIncoming := ""
  configJson := []
  preferences := store
  connected := false
  clientHost := ""
  clientPort := 0
  nQuery := 0
  nConnect := 0
  nPublish := 0
  nLoop := 0
  trace := []

/-! ## Machine integers and Arduino `String` operations -/

/-- Conversion of an integer to `long` (signed, 32 bits, two's complement). -/
def toLong (z : Int) : Int := (z + 2 ^ 31) % 2 ^ 32 - 2 ^ 31

/-- Models `s.length()`. -/
def strLength (s : String) : Nat := s.data.length

/-- Models `s[index]`: the byte at `index`, 0 past the end. -/
def charAt (s : String) (index : Nat) : Nat :=
  match s.data.get? index with
  | some c => c.toNat
  | none => 0

/-- Models `s.c_str()` as a C reader sees it: the bytes before the first NUL. -/
def c_str (s : String) : String :=
  String.mk (s.data.takeWhile (fun c => c != Char.ofNat 0))

/-- Models `s.substring(left, right)`: the bounds are swapped when `left > right`, the
result is empty when `left` is past the end, and `right` is cut to the length. -/
def substring (s : String) (left right : Nat) : String :=
  let l := if left > right then right else left
  let r := if left > right then left else right
  if l ≥ strLength s then ""
  else
    let r := if r > strLength s then strLength s else r
    String.mk ((s.data.take r).drop l)

/-- Models `s.substring(left)`: from `left` to the end. -/
def substringFrom (s : String) (left : Nat) : String :=
  substring s left (strLength s)

/-- Models `String x = doc[key]`: the content of a string value, the JSON text of any
other value, `"null"` for an absent member. -/
def jsonAsString (doc : JsonDocument) (key : String) : String :=
  match doc.lookup key with
  | some (.str s) => s
  | some (.uint n) => toString n
  | some (.other text _) => text
  | none => "null"

/-- Models `unsigned long x = doc[key]`: 0 for an absent member and for an integer
that does not fit. -/
def jsonAsULong (env : Env) (doc : JsonDocument) (key : String) : Nat :=
  match doc.lookup key with
  | some (.uint n) => if n < 2 ^ 32 then n else 0
  | some (.str s) => env.parseNumber s % 2 ^ 32
  | some (.other _ k) => k % 2 ^ 32
  | none => 0

/-! ## Primitive actions -/

/-- Append one event to the trace. -/
def emit (e : Event) (st : State) : State :=
  { st with trace := st.trace ++ [e] }

/-- Outcome of a `client.publish` made now: it fails when the session is not
connected, otherwise the broker side decides. -/
def publishAccepted (env : Env) (st : State) : Bool :=
  st.connected && env.publishOk st.nPublish

/-- Models `client.publish(topic, payload)`, without its result. -/
def publish (env : Env) (topic payload : String) (st : State) : State :=
  { st with
    nPublish := st.nPublish + 1
    trace := st.trace ++ [.publish topic payload (publishAccepted env st)] }

/-- The nine assignments of lines 291-299, repeated at lines 347-355. -/
def rebuildTopics (st : State) : State :=
  { st with
    cmdTopic := "lab/machines/" ++ st.ID ++ "/CMD"
    configTopic := "lab/machines/" ++ st.ID ++ "/CONFIG"
    datarawTopic := "lab/machines/" ++ st.ID ++ "/DATA/raw"
    datavalueTopic := "lab/machines/" ++ st.ID ++ "/DATA/value"
    datamodeTopic := "lab/machines/" ++ st.ID ++ "/DATA/mode"
    stateIDTopic := "lab/machines/" ++ st.ID ++ "/STATE/id"
    stateIPAddrTopic := "lab/machines/" ++ st.ID ++ "/STATE/IPAddr"
    statestatusTopic := "lab/machines/" ++ st.ID ++ "/STATE/status"
    stateconfigTopic := "lab/machines/" ++ st.ID ++ "/STATE/config" }

/-- Lines 228-234 (and 383-389): write the current configuration into
`configJson` and publish its JSON text on the state-config topic. -/
def publishConfig (env : Env) (st : State) : State :=
  let doc := st.configJson.set "server" (.str st.mqttServer)
  let doc := doc.set "ID" (.str st.ID)
  let doc := doc.set "mqtt_publish_interval" (.uint st.mqtt_publish_interval)
  let st := { st with configJson := doc }
  publish env st.stateconfigTopic (env.serializeJson st.configJson) st

/-! ## The functions of `main.cpp` -/

/-- Models `callback(topic, payload, length)`, lines 69-99: the payload is kept
as the pending command when the topic is the command topic and as the pending
config when it is the config topic; the latest arrival wins. -/
def callback (topic payload : String) (st : State) : State :=
  let st :=
    if topic = st.cmdTopic then
      { st with cmdReceived := true, cmdIncoming := payload }
    else st
  if topic = st.configTopic then
    { st with configReceived := true, configIncoming := payload }
  else st

/-- Models `updateStatus()`, lines 101-137.  `(int)statusData[0]` is the value of
the first byte (`char` is unsigned on the target), 0 for an empty line. -/
def updateStatus (env : Env) (st : State) : State :=
  let st := emit (.serial1Write 27) st
  let st := emit (.serial1Write (Char.toNat 'S')) st
  let st := emit (.serial1Println "") st
  let st := emit (.delay 500) st
  let answer := env.instrument st.nQuery
  let st := { st with nQuery := st.nQuery + 1 }
  match answer with
  | some statusData =>
    let statusValue : Int := Int.ofNat (charAt statusData 0)
    let st := publish env st.stateIDTopic st.ID st
    let st := publish env st.stateIPAddrTopic env.localIP st
    publish env st.statestatusTopic (toString statusValue) st
  | none =>
    let data := "TIMEOUT"
    let st := publish env st.stateIDTopic st.ID st
    let st := publish env st.stateIPAddrTopic env.localIP st
    publish env st.statestatusTopic data st

/-- Models `updateDisplay()`, lines 139-191.  The mode and the value are
published in the `else` branch of the test on the raw-data publish.  The
payloads and the argument of `atof` are handed over through `c_str()`.  The
value is printed into `valueBuffer[32]`, which holds 31 characters and the
terminator: the source defines nothing once a longer text has been written,
and the model records the overrun and ends the cycle there. -/
def updateDisplay (env : Env) (st : State) : State :=
  let st := emit (.serial1Write 27) st
  let st := emit (.serial1Write (Char.toNat 'D')) st
  let st := emit (.serial1Println "") st
  let st := emit (.delay 500) st
  let answer := env.instrument st.nQuery
  let st := { st with nQuery := st.nQuery + 1 }
  match answer with
  | some receivedData =>
    let accepted := publishAccepted env st
    let st := publish env st.datarawTopic (c_str receivedData) st
    if !accepted then
      st
    else
      if strLength receivedData > 4 then
        let receivedMode := substring receivedData 0 4
        let st := publish env st.datamodeTopic (c_str receivedMode) st
        let receivedValue := substringFrom receivedData 4
        let valueBuffer := env.formatValue (c_str receivedValue)
        if strLength valueBuffer < 32 then
          publish env st.datavalueTopic valueBuffer st
        else
          emit (.overrun (strLength valueBuffer)) st
      else st
  | none =>
    let data := "TIMEOUT"
    let st := publish env st.stateIDTopic st.ID st
    let st := publish env st.stateIPAddrTopic env.localIP st
    publish env st.statestatusTopic data st

/-- The body of the `while` loop of `reconnect()`, lines 198-224: one connect
attempt towards `mqttServer`, followed on success by a status report and the
two subscriptions, on failure by the 5 s wait. -/
def connectAttempt (env : Env) (st : State) : State :=
  let st := { st with clientHost := st.mqttServer, clientPort := 1883 }
  let ok := env.connectOk st.nConnect
  let st := emit (.connect st.clientHost st.clientPort st.ID ok) st
  let st := { st with nConnect := st.nConnect + 1 }
  if ok then
    let st := { st with connected := true }
    let st := updateStatus env st
    let st := emit (.subscribe st.cmdTopic) st
    emit (.subscribe st.configTopic) st
  else
    emit (.delay 5000) st

/-- Models `reconnect()`.  The `while` loop runs for as long as the session is not
connected; `fuel` bounds the number of connect attempts, and the result is
`none` when they are used up before a connect succeeds. -/
def reconnect (env : Env) : Nat → State → Option State
  | fuel, st =>
    if st.connected then
      some (publishConfig env st)
    else
      match fuel with
      | 0 => none
      | fuel + 1 => reconnect env fuel (connectAttempt env st)

/-- Models `processCommand()`, lines 238-252. -/
def processCommand (env : Env) (st : State) : State :=
  let st := { st with cmdReceived := false }
  let st := emit (.serial1Println st.cmdIncoming) st
  let st := emit (.delay 1000) st
  let st := updateDisplay env st
  { st with cmdIncoming := "" }

/-- Lines 258-303 of `processConfig()`: everything it does before the call of
`reconnect()`.  The calls `preferences.begin` and `preferences.end`, which
open and close the namespace, change nothing in the store and are left out. -/
def applyConfig (env : Env) (st : State) : State :=
  let st := { st with configReceived := false }
  let st := { st with configJson := env.deserializeJson st.configIncoming }
  let temp_mqttServer := jsonAsString st.configJson "server"
  let temp_ID := jsonAsString st.configJson "ID"
  let temp_mqtt_publish_interval := jsonAsULong env st.configJson "mqtt_publish_interval"
  let p := st.preferences.clear
  let p := p.putString "default" "no"
  let p := p.putString "server" temp_mqttServer
  let p := p.putString "id" temp_ID
  let p := p.putULong "autosend" temp_mqtt_publish_interval
  let st := { st with preferences := p }
  let st := { st with mqttServer := st.preferences.getString "server" "null" }
  let st := { st with ID := st.preferences.getString "id" "null" }
  let st := { st with mqtt_publish_interval := st.preferences.getULong "autosend" 0 }
  let st := { st with updateInterval := toLong st.mqtt_publish_interval }
  let st := rebuildTopics st
  let st := { st with configIncoming := "" }
  emit .disconnect { st with connected := false }

/-- Models `processConfig()`, lines 254-306: the apply, then `reconnect()`, which
returns only once a connect has succeeded. -/
def processConfig (env : Env) (fuel : Nat) (st : State) : Option State :=
  reconnect env fuel (applyConfig env st)

/-- Models `setup()`, lines 308-391.  No connect is made here: after power-up the
publishes meet a client that is not connected. -/
def setup (env : Env) (st : State) : State :=
  let prefDefault := st.preferences.getString "default" "default"
  let st :=
    if prefDefault = "default" then
      let p := st.preferences.clear
      let p := p.putString "default" "no"
      let p := p.putString "server" "mqtt-s1.casafrog.com"
      let p := p.putString "id" "unconfigured"
      let p := p.putULong "autosend" 5000
      { st with preferences := p }
    else st
  let st := { st with mqttServer := st.preferences.getString "server" "null" }
  let st := { st with ID := st.preferences.getString "id" "null" }
  let st := { st with mqtt_publish_interval := st.preferences.getULong "autosend" 0 }
  let st := { st with updateInterval := toLong st.mqtt_publish_interval }
  let st := rebuildTopics st
  let st := { st with clientHost := st.mqttServer, clientPort := 1883 }
  let st := publish env st.stateIDTopic st.ID st
  let st := publish env st.stateIPAddrTopic env.localIP st
  let st := emit (.delay 3500) st
  publishConfig env st

/-- Models `client.loop()`: the session may be found lost, and the frames that have
arrived are handed to `callback` one after the other. -/
def clientLoop (env : Env) (st : State) : State :=
  let frames := env.inbound st.nLoop
  let lost := env.linkLost st.nLoop
  let st := { st with nLoop := st.nLoop + 1 }
  let st := if lost then { st with connected := false } else st
  frames.foldl (fun s f => callback f.1 f.2 s) st

/-- The countdown step of `loop()`, lines 413-427. -/
def autoReport (env : Env) (st : State) : State :=
  if st.mqtt_publish_interval > 0 then
    if st.updateInterval ≤ 0 then
      let st := updateDisplay env st
      let st := emit (.delay 100) st
      let st := updateStatus env st
      { st with updateInterval := toLong st.mqtt_publish_interval }
    else
      { st with updateInterval := toLong (st.updateInterval - 1) }
  else st

/-- Models `loop()`, lines 395-432: one controller tick.  The four tests are made
one after the other, none is an `else` of the one before. -/
def loop (env : Env) (fuel : Nat) (st : State) : Option State :=
  (if !st.connected then reconnect env fuel st else some st).bind fun st =>
  let st := if st.cmdReceived then processCommand env st else st
  (if st.configReceived then processConfig env fuel st else some st).bind fun st =>
  let st := autoReport env st
  some (clientLoop env st)

/-- The first `k` controller ticks from a state. -/
def ticks (env : Env) (fuel : Nat) : Nat → State → Option State
  | 0, st => some st
  | k + 1, st => (loop env fuel st).bind (ticks env fuel k)

/-! ## Observations on traces -/

/-- The (topic, payload) pairs of the publishes of a trace, in order. -/
def publishes : List Event → List (String × String)
  | [] => []
  | .publish topic payload _ :: es => (topic, payload) :: publishes es
  | _ :: es => publishes es

/-- The connect attempts of a trace, in order. -/
def connects : List Event → List Event
  | [] => []
  | .connect h p c ok :: es => .connect h p c ok :: connects es
  | _ :: es => connects es

/-- The nine topic names of a state, in the order of their declaration. -/
def topicsOf (st : State) : List String :=
  [st.cmdTopic, st.configTopic, st.datarawTopic, st.datavalueTopic, st.datamodeTopic,
   st.stateIDTopic, st.stateIPAddrTopic, st.statestatusTopic, st.stateconfigTopic]

/-- The nine names derived from a device identity. -/
def derivedTopics (deviceId : String) : List String :=
  ["/CMD", "/CONFIG", "/DATA/raw", "/DATA/value", "/DATA/mode",
   "/STATE/id", "/STATE/IPAddr", "/STATE/status", "/STATE/config"].map
    fun suffix => "lab/machines/" ++ deviceId ++ suffix

/-- The events a run from `st` to `st'` has appended to the trace. -/
def added (st st' : State) : List Event :=
  st'.trace.drop st.trace.length

/-- The events of one status-report cycle begun in `st`. -/
def statusEvents (env : Env) (st : State) : List Event :=
  [.serial1Write 27, .serial1Write 83, .serial1Println "", .delay 500,
   .publish st.stateIDTopic st.ID (st.connected && env.publishOk st.nPublish),
   .publish st.stateIPAddrTopic env.localIP (st.connected && env.publishOk (st.nPublish + 1)),
   .publish st.statestatusTopic
     (match env.instrument st.nQuery with
      | some statusData => toString (Int.ofNat (charAt statusData 0))
      | none => "TIMEOUT")
     (st.connected && env.publishOk (st.nPublish + 2))]

/-- What one display-report cycle begun in `st` does after the query. -/
def displayPublishes (env : Env) (st : State) : List Event :=
  match env.instrument st.nQuery with
  | some raw =>
    .publish st.datarawTopic (c_str raw) (st.connected && env.publishOk st.nPublish) ::
      (if (st.connected && env.publishOk st.nPublish) = true ∧ strLength raw > 4 then
        [.publish st.datamodeTopic (c_str (substring raw 0 4))
            (st.connected && env.publishOk (st.nPublish + 1)),
         if strLength (env.formatValue (c_str (substringFrom raw 4))) < 32 then
           .publish st.datavalueTopic (env.formatValue (c_str (substringFrom raw 4)))
             (st.connected && env.publishOk (st.nPublish + 2))
         else .overrun (strLength (env.formatValue (c_str (substringFrom raw 4))))]
      else [])
  | none =>
    [.publish st.stateIDTopic st.ID (st.connected && env.publishOk st.nPublish),
     .publish st.stateIPAddrTopic env.localIP (st.connected && env.publishOk (st.nPublish + 1)),
     .publish st.statestatusTopic "TIMEOUT" (st.connected && env.publishOk (st.nPublish + 2))]

/-- The events of one display-report cycle begun in `st`. -/
def displayEvents (env : Env) (st : State) : List Event :=
  [.serial1Write 27, .serial1Write 68, .serial1Println "", .delay 500] ++ displayPublishes env st

/-- The events of one connect attempt begun in `st`. -/
def attemptEvents (env : Env) (st : State) : List Event :=
  .connect st.mqttServer 1883 st.ID (env.connectOk st.nConnect) ::
    (if env.connectOk st.nConnect then
      statusEvents env { st with connected := true } ++
        [.subscribe st.cmdTopic, .subscribe st.configTopic]
    else [.delay 5000])

/-- The state `st'` differs from `st` only in the messaging client, the JSON
scratch document and the positions in the answers of the environment; the
events `evs` were appended, and every connect attempt among them is towards
`mqttServer` under the client id `ID`. -/
def SessionRun (st st' : State) (evs : List Event) : Prop :=
  (∃ doc h p c nq nc np,
    st' = { st with
            configJson := doc, clientHost := h, clientPort := p, connected := c,
            nQuery := nq, nConnect := nc, nPublish := np, trace := st.trace ++ evs }) ∧
  ∀ e ∈ connects evs, ∃ ok, e = Event.connect st.mqttServer 1883 st.ID ok

/-- The text `payload` is a well-formed config: the JSON library parses it into
a document whose members `server` and `ID` are the strings `s` and `i` and
whose member `mqtt_publish_interval` is the integer `n`, which fits an
`unsigned long`. -/
def WellFormedConfig (env : Env) (payload s i : String) (n : Nat) : Prop :=
  (env.deserializeJson payload).lookup "server" = some (.str s) ∧
  (env.deserializeJson payload).lookup "ID" = some (.str i) ∧
  (env.deserializeJson payload).lookup "mqtt_publish_interval" = some (.uint n) ∧
  n < 2 ^ 32

/-- The durable record of the configuration `(s, i, n)`, as `processConfig`
and `setup` write it. -/
def configRecord (s i : String) (n : Nat) : Preferences :=
  [("default", .str "no"), ("server", .str s), ("id", .str i), ("autosend", .ulong n)]

/-- During the `k`-th `client.loop()` the session stays up and no frame arrives
on the command or the config topic of `st`. -/
def QuietAt (env : Env) (st : State) (k : Nat) : Prop :=
  env.linkLost k = false ∧
  ∀ f ∈ env.inbound k, f.1 ≠ st.cmdTopic ∧ f.1 ≠ st.configTopic

/-! ## Sample environments and states -/

/-- A bench set-up: the instrument gives the same answer to every query, the
broker accepts every connect and publish, and nothing arrives. -/
def benchEnv (answer : Option String) : Env where
  localIP := "192.168.1.50"
  instrument := fun _ => answer
  connectOk := fun _ => true
  publishOk := fun _ => true
  inbound := fun _ => []
  linkLost := fun _ => false
  deserializeJson := fun _ => []
  serializeJson := fun _ => ""
  parseNumber := fun _ => 0
  formatValue := fun text =>
    if text = "+1.234E+00" then "1.23400000"
    else if text = "1E30" then "1000000000000000019884624838656.00000000"
    else "0.00000000"

/-- The state after a first boot on an empty store, with the session up. -/
def onlineState : State :=
  { setup (benchEnv none) (boot []) with connected := true }

/-- A config message: broker `b2`, identity `dev2`, auto-report off. -/
def samplePayload : String :=
  "\x7b\"server\":\"b2\",\"ID\":\"dev2\",\"mqtt_publish_interval\":0\x7d"

/-- A config message: broker `b2`, identity `dev2`, a report every 10 ticks. -/
def cadencePayload : String :=
  "\x7b\"server\":\"b2\",\"ID\":\"dev2\",\"mqtt_publish_interval\":10\x7d"

/-- The bench set-up with a JSON library that reads `samplePayload` and
`cadencePayload`. -/
def configEnv : Env :=
  { benchEnv none with
    deserializeJson := fun text =>
      if text = samplePayload then
        [("server", .str "b2"), ("ID", .str "dev2"), ("mqtt_publish_interval", .uint 0)]
      else if text = cadencePayload then
        [("server", .str "b2"), ("ID", .str "dev2"), ("mqtt_publish_interval", .uint 10)]
      else [] }

/-- The set-up of `configEnv` with a broker that refuses every connect. -/
def deafBrokerEnv : Env :=
  { configEnv with connectOk := fun _ => false }

/-- The online state in which `samplePayload` has arrived on the config topic. -/
def pendingConfigState : State :=
  callback "lab/machines/unconfigured/CONFIG" samplePayload onlineState

/-- The state after a boot on a store that holds broker `b2`, identity `dev2`
and interval 0, with the session up. -/
def offState : State :=
  { setup (benchEnv none) (boot (configRecord "b2" "dev2" 0)) with connected := true }

end DvmBridge

namespace DvmBridge

/-! ## Traces -/

@[simp] theorem publishes_append (a b : List Event) :
    publishes (a ++ b) = publishes a ++ publishes b := by
  induction a with
  | nil => rfl
  | cons e es ih => cases e <;> simp [publishes, ih]

@[simp] theorem connects_append (a b : List Event) :
    connects (a ++ b) = connects a ++ connects b := by
  induction a with
  | nil => rfl
  | cons e es ih => cases e <;> simp [connects, ih]

theorem added_of_trace {st st' : State} {evs : List Event}
    (h : st'.trace = st.trace ++ evs) : added st st' = evs := by
  simp [added, h]

/-! ## The two report cycles as state updates -/

theorem updateStatus_eq (env : Env) (st : State) :
    updateStatus env st =
      { st with
        nQuery := st.nQuery + 1
        nPublish := st.nPublish + 3
        trace := st.trace ++ statusEvents env st } := by
  unfold updateStatus statusEvents
  cases h : env.instrument st.nQuery <;>
    simp [emit, publish, publishAccepted, h]

theorem updateDisplay_eq (env : Env) (st : State) :
    updateDisplay env st =
      { st with
        nQuery := st.nQuery + 1
        nPublish := st.nPublish + (publishes (displayPublishes env st)).length
        trace := st.trace ++ displayEvents env st } := by
  unfold updateDisplay displayEvents displayPublishes
  cases h : env.instrument st.nQuery with
  | none => simp [emit, publish, publishAccepted, publishes, h]
  | some raw =>
    by_cases hacc : (st.connected && env.publishOk st.nPublish) = true
    · by_cases hlen : strLength raw > 4
      · by_cases hfit : strLength (env.formatValue (c_str (substringFrom raw 4))) < 32
        · simp [emit, publish, publishAccepted, publishes, h, hacc, hlen, hfit]
        · simp [emit, publish, publishAccepted, publishes, h, hacc, hlen, hfit]
      · simp [emit, publish, publishAccepted, publishes, h, hacc, hlen]
    · simp [emit, publish, publishAccepted, publishes, h, hacc]

theorem added_updateDisplay (env : Env) (st : State) :
    added st (updateDisplay env st) = displayEvents env st :=
  added_of_trace (by rw [updateDisplay_eq])

theorem added_updateStatus (env : Env) (st : State) :
    added st (updateStatus env st) = statusEvents env st :=
  added_of_trace (by rw [updateStatus_eq])

/-! ## Topic names -/

theorem topic_suffix_inj (deviceId a b : String)
    (h : "lab/machines/" ++ deviceId ++ a = "lab/machines/" ++ deviceId ++ b) : a = b := by
  have hd := congrArg String.data h
  simp only [String.data_append] at hd
  exact String.ext (List.append_cancel_left hd)

theorem derivedTopics_nodup (deviceId : String) : (derivedTopics deviceId).Nodup := by
  unfold derivedTopics
  refine List.Nodup.map (fun a b h => topic_suffix_inj deviceId a b h) ?_
  decide

theorem topicsOf_rebuildTopics (st : State) :
    topicsOf (rebuildTopics st) = derivedTopics st.ID := by
  simp [topicsOf, rebuildTopics, derivedTopics]

/-- C3. The nine topic names built from a device identity by the assignments
shared by `setup` and `processConfig` are `"lab/machines/" + deviceId + suffix`
for the nine fixed suffixes, they are pairwise distinct, and each starts with
`"lab/machines/" + deviceId + "/"`. This holds for every identity, so for
every one without a `/`. -/
theorem topic_derivation (st : State) :
    topicsOf (rebuildTopics st) =
      ["lab/machines/" ++ st.ID ++ "/CMD", "lab/machines/" ++ st.ID ++ "/CONFIG",
       "lab/machines/" ++ st.ID ++ "/DATA/raw", "lab/machines/" ++ st.ID ++ "/DATA/value",
       "lab/machines/" ++ st.ID ++ "/DATA/mode", "lab/machines/" ++ st.ID ++ "/STATE/id",
       "lab/machines/" ++ st.ID ++ "/STATE/IPAddr", "lab/machines/" ++ st.ID ++ "/STATE/status",
       "lab/machines/" ++ st.ID ++ "/STATE/config"] ∧
    (rebuildTopics st).ID = st.ID ∧
    (topicsOf (rebuildTopics st)).Nodup ∧
    ∀ t ∈ topicsOf (rebuildTopics st), ∃ rest, t = "lab/machines/" ++ st.ID ++ "/" ++ rest := by
  refine ⟨by simp [topicsOf, rebuildTopics], rfl, ?_, ?_⟩
  · rw [topicsOf_rebuildTopics]
    exact derivedTopics_nodup st.ID
  · intro t ht
    simp only [topicsOf, rebuildTopics, List.mem_cons, List.mem_singleton, List.not_mem_nil,
      or_false] at ht
    rcases ht with h | h | h | h | h | h | h | h | h
    · exact ⟨"CMD", by rw [h, String.append_assoc _ "/" "CMD"]; rfl⟩
    · exact ⟨"CONFIG", by rw [h, String.append_assoc _ "/" "CONFIG"]; rfl⟩
    · exact ⟨"DATA/raw", by rw [h, String.append_assoc _ "/" "DATA/raw"]; rfl⟩
    · exact ⟨"DATA/value", by rw [h, String.append_assoc _ "/" "DATA/value"]; rfl⟩
    · exact ⟨"DATA/mode", by rw [h, String.append_assoc _ "/" "DATA/mode"]; rfl⟩
    · exact ⟨"STATE/id", by rw [h, String.append_assoc _ "/" "STATE/id"]; rfl⟩
    · exact ⟨"STATE/IPAddr", by rw [h, String.append_assoc _ "/" "STATE/IPAddr"]; rfl⟩
    · exact ⟨"STATE/status", by rw [h, String.append_assoc _ "/" "STATE/status"]; rfl⟩
    · exact ⟨"STATE/config", by rw [h, String.append_assoc _ "/" "STATE/config"]; rfl⟩

/-! ## Status report -/

theorem toString_natCast (n : Nat) : toString (n : Int) = toString n := rfl

/-- C4. When the instrument answers the status query with a non-empty line
whose first byte is `c`, `updateStatus` publishes exactly three messages, in
this order: the identity on the state-id topic, the network address on the
state-address topic and the decimal value of `c` on the state-status topic;
the bytes after the first play no part. -/
theorem updateStatus_publishes_status_byte (env : Env) (st : State) (c : Char)
    (rest : List Char) (h : env.instrument st.nQuery = some (String.mk (c :: rest))) :
    publishes (added st (updateStatus env st)) =
      [(st.stateIDTopic, st.ID), (st.stateIPAddrTopic, env.localIP),
       (st.statestatusTopic, toString c.toNat)] := by
  rw [added_updateStatus]
  simp [statusEvents, publishes, h, charAt, toString_natCast]

theorem updateStatus_publishes_status_byte_witness :
    publishes (added onlineState (updateStatus (benchEnv (some "*\r")) onlineState)) =
      [("lab/machines/unconfigured/STATE/id", "unconfigured"),
       ("lab/machines/unconfigured/STATE/IPAddr", "192.168.1.50"),
       ("lab/machines/unconfigured/STATE/status", "42")] :=
  updateStatus_publishes_status_byte (benchEnv (some "*\r")) onlineState '*' ['\r'] rfl

/-! ## Display report -/

theorem state_topics_ne_data_topics (st : State) (h : topicsOf st = derivedTopics st.ID)
    (t : String)
    (ht : t = st.stateIDTopic ∨ t = st.stateIPAddrTopic ∨ t = st.statestatusTopic) :
    t ≠ st.datarawTopic ∧ t ≠ st.datamodeTopic ∧ t ≠ st.datavalueTopic := by
  have hn : (topicsOf st).Nodup := h ▸ derivedTopics_nodup st.ID
  simp only [topicsOf, List.nodup_cons, List.mem_cons, List.mem_singleton, List.not_mem_nil,
    or_false, not_or, List.nodup_nil, and_true, not_false_eq_true] at hn
  obtain ⟨-, -, ⟨-, -, h3, h4, h5, -⟩, ⟨-, h7, h8, h9, -⟩, ⟨h10, h11, h12, -⟩, -⟩ := hn
  rcases ht with rfl | rfl | rfl
  · exact ⟨Ne.symm h3, Ne.symm h10, Ne.symm h7⟩
  · exact ⟨Ne.symm h4, Ne.symm h11, Ne.symm h8⟩
  · exact ⟨Ne.symm h5, Ne.symm h12, Ne.symm h9⟩

/-- C6. When the instrument is silent after the settle delay, `updateStatus`
and `updateDisplay` both publish exactly three messages: the identity on the
state-id topic, the network address on the state-address topic and the text
TIMEOUT on the state-status topic. The two cycles publish the same messages,
and, the topic names being those derived from the identity, none of them is
on the raw-data, mode or value topic. -/
theorem timeout_is_published (env : Env) (st : State)
    (h : env.instrument st.nQuery = none) :
    publishes (added st (updateStatus env st)) =
      [(st.stateIDTopic, st.ID), (st.stateIPAddrTopic, env.localIP),
       (st.statestatusTopic, "TIMEOUT")] ∧
    publishes (added st (updateDisplay env st)) =
      [(st.stateIDTopic, st.ID), (st.stateIPAddrTopic, env.localIP),
       (st.statestatusTopic, "TIMEOUT")] ∧
    publishes (added st (updateDisplay env st)) = publishes (added st (updateStatus env st)) ∧
    (topicsOf st = derivedTopics st.ID →
      ∀ m ∈ publishes (added st (updateDisplay env st)),
        m.1 ≠ st.datarawTopic ∧ m.1 ≠ st.datamodeTopic ∧ m.1 ≠ st.datavalueTopic) := by
  have hs : publishes (added st (updateStatus env st)) =
      [(st.stateIDTopic, st.ID), (st.stateIPAddrTopic, env.localIP),
       (st.statestatusTopic, "TIMEOUT")] := by
    rw [added_updateStatus]
    simp [statusEvents, publishes, h]
  have hd : publishes (added st (updateDisplay env st)) =
      [(st.stateIDTopic, st.ID), (st.stateIPAddrTopic, env.localIP),
       (st.statestatusTopic, "TIMEOUT")] := by
    rw [added_updateDisplay]
    simp [displayEvents, displayPublishes, publishes, h]
  refine ⟨hs, hd, by rw [hs, hd], ?_⟩
  intro htop m hm
  rw [hd] at hm
  simp only [List.mem_cons, List.mem_singleton, List.not_mem_nil, or_false] at hm
  apply state_topics_ne_data_topics st htop
  rcases hm with rfl | rfl | rfl <;> simp

theorem timeout_is_published_witness :
    publishes (added onlineState (updateDisplay (benchEnv none) onlineState)) =
      [("lab/machines/unconfigured/STATE/id", "unconfigured"),
       ("lab/machines/unconfigured/STATE/IPAddr", "192.168.1.50"),
       ("lab/machines/unconfigured/STATE/status", "TIMEOUT")] ∧
    ∀ m ∈ publishes (added onlineState (updateDisplay (benchEnv none) onlineState)),
      m.1 ≠ "lab/machines/unconfigured/DATA/raw" ∧
      m.1 ≠ "lab/machines/unconfigured/DATA/mode" ∧
      m.1 ≠ "lab/machines/unconfigured/DATA/value" :=
  ⟨(timeout_is_published (benchEnv none) onlineState rfl).2.1,
   (timeout_is_published (benchEnv none) onlineState rfl).2.2.2 (by decide)⟩

/-! ## Rejected publish -/

theorem publishConfig_eq (env : Env) (st : State) :
    publishConfig env st =
      { st with
        configJson := (publishConfig env st).configJson
        nPublish := st.nPublish + 1
        trace := st.trace ++
          [.publish st.stateconfigTopic (env.serializeJson (publishConfig env st).configJson)
            (publishAccepted env st)] } := by
  simp [publishConfig, publish, publishAccepted]

theorem connectAttempt_eq (env : Env) (st : State) :
    connectAttempt env st =
      { st with
        clientHost := st.mqttServer
        clientPort := 1883
        connected := if env.connectOk st.nConnect then true else st.connected
        nQuery := if env.connectOk st.nConnect then st.nQuery + 1 else st.nQuery
        nConnect := st.nConnect + 1
        nPublish := if env.connectOk st.nConnect then st.nPublish + 3 else st.nPublish
        trace := st.trace ++ attemptEvents env st } := by
  unfold connectAttempt attemptEvents
  by_cases hok : env.connectOk st.nConnect = true
  · simp [hok, emit, updateStatus_eq, statusEvents]
  · simp [hok, emit]

theorem SessionRun.trans {a b c : State} {e₁ e₂ : List Event}
    (h₁ : SessionRun a b e₁) (h₂ : SessionRun b c e₂) : SessionRun a c (e₁ ++ e₂) := by
  obtain ⟨⟨doc₁, h₁, p₁, c₁, nq₁, nc₁, np₁, rfl⟩, hc₁⟩ := h₁
  obtain ⟨⟨doc₂, h₂, p₂, c₂, nq₂, nc₂, np₂, rfl⟩, hc₂⟩ := h₂
  refine ⟨⟨doc₂, h₂, p₂, c₂, nq₂, nc₂, np₂, by simp⟩, ?_⟩
  intro e he
  rw [connects_append, List.mem_append] at he
  rcases he with he | he
  · exact hc₁ e he
  · exact hc₂ e he

theorem connects_statusEvents (env : Env) (st : State) : connects (statusEvents env st) = [] := by
  simp [statusEvents, connects]

theorem SessionRun.publishConfig (env : Env) (st : State) :
    SessionRun st (publishConfig env st)
      [.publish st.stateconfigTopic (env.serializeJson (publishConfig env st).configJson)
        (publishAccepted env st)] := by
  refine ⟨⟨(DvmBridge.publishConfig env st).configJson, st.clientHost, st.clientPort,
    st.connected, st.nQuery, st.nConnect, st.nPublish + 1, ?_⟩, ?_⟩
  · exact publishConfig_eq env st
  · simp [connects]

theorem SessionRun.connectAttempt (env : Env) (st : State) :
    SessionRun st (connectAttempt env st) (attemptEvents env st) := by
  refine ⟨⟨st.configJson, st.mqttServer, 1883, _, _, st.nConnect + 1, _,
    connectAttempt_eq env st⟩, ?_⟩
  intro e he
  unfold attemptEvents at he
  by_cases hok : env.connectOk st.nConnect = true
  · simp [hok, connects, connects_statusEvents] at he
    exact ⟨true, he⟩
  · simp [hok, connects] at he
    exact ⟨false, he⟩

theorem reconnect_spec (env : Env) :
    ∀ (fuel : Nat) (st st' : State), reconnect env fuel st = some st' →
      st'.connected = true ∧ ∃ evs, SessionRun st st' evs := by
  intro fuel
  induction fuel with
  | zero =>
    intro st st' hr
    unfold reconnect at hr
    by_cases hc : st.connected = true
    · simp only [hc, if_true, Option.some.injEq] at hr
      subst hr
      exact ⟨by rw [publishConfig_eq]; exact hc, _, SessionRun.publishConfig env st⟩
    · simp [hc] at hr
  | succ fuel ih =>
    intro st st' hr
    unfold reconnect at hr
    by_cases hc : st.connected = true
    · simp only [hc, if_true, Option.some.injEq] at hr
      subst hr
      exact ⟨by rw [publishConfig_eq]; exact hc, _, SessionRun.publishConfig env st⟩
    · simp only [hc, Bool.false_eq_true, if_false] at hr
      obtain ⟨hcon, evs, hrun⟩ := ih _ _ hr
      exact ⟨hcon, _, (SessionRun.connectAttempt env st).trans hrun⟩

theorem reconnect_returns (env : Env) :
    ∀ (fuel : Nat) (st : State),
      (st.connected = true ∨ ∃ k, k < fuel ∧ env.connectOk (st.nConnect + k) = true) →
      ∃ st', reconnect env fuel st = some st' := by
  intro fuel
  induction fuel with
  | zero =>
    intro st h
    rcases h with hc | ⟨k, hk, -⟩
    · exact ⟨publishConfig env st, by unfold reconnect; simp [hc]⟩
    · omega
  | succ fuel ih =>
    intro st h
    by_cases hc : st.connected = true
    · exact ⟨publishConfig env st, by unfold reconnect; simp [hc]⟩
    · rcases h with h | ⟨k, hk, hok⟩
      · exact absurd h hc
      · unfold reconnect
        simp only [hc, Bool.false_eq_true, if_false]
        apply ih
        rw [connectAttempt_eq]
        by_cases h0 : env.connectOk st.nConnect = true
        · left
          simp [h0]
        · right
          cases k with
          | zero => exact absurd hok h0
          | succ k =>
            refine ⟨k, by omega, ?_⟩
            simp only
            rw [← hok]
            congr 1
            omega

theorem reconnect_refused (env : Env) (h : ∀ k, env.connectOk k = false) :
    ∀ (fuel : Nat) (st : State), st.connected = false → reconnect env fuel st = none := by
  intro fuel
  induction fuel with
  | zero =>
    intro st hc
    unfold reconnect
    simp [hc]
  | succ fuel ih =>
    intro st hc
    unfold reconnect
    simp only [hc, Bool.false_eq_true, if_false]
    apply ih
    rw [connectAttempt_eq]
    simp [h, hc]

/-! ## Config apply -/

theorem store_after_puts (s i : String) (n : Nat) (hn : n < 2 ^ 32) (p : Preferences) :
    (((p.clear.putString "default" "no").putString "server" s).putString "id" i).putULong
      "autosend" n = configRecord s i n := by
  have hm : n % 2 ^ 32 = n := Nat.mod_eq_of_lt hn
  simp only [Preferences.putULong, hm]
  simp [Preferences.clear, Preferences.putString, Preferences.put, configRecord]

theorem configRecord_reads (s i : String) (n : Nat) :
    Preferences.getString (configRecord s i n) "default" "default" = "no" ∧
    Preferences.getString (configRecord s i n) "server" "null" = s ∧
    Preferences.getString (configRecord s i n) "id" "null" = i ∧
    Preferences.getULong (configRecord s i n) "autosend" 0 = n := by
  simp [configRecord, Preferences.getString, Preferences.getULong, List.lookup]

theorem applyConfig_eq (env : Env) (st : State) (s i : String) (n : Nat)
    (hwf : WellFormedConfig env st.configIncoming s i n) :
    applyConfig env st =
      { rebuildTopics { st with ID := i } with
        mqttServer := s
        mqtt_publish_interval := n
        updateInterval := toLong n
        configReceived := false
        configIncoming := ""
        configJson := env.deserializeJson st.configIncoming
        preferences := configRecord s i n
        connected := false
        trace := st.trace ++ [.disconnect] } := by
  obtain ⟨h1, h2, h3, hn⟩ := hwf
  have hs : jsonAsString (env.deserializeJson st.configIncoming) "server" = s := by
    simp [jsonAsString, h1]
  have hi : jsonAsString (env.deserializeJson st.configIncoming) "ID" = i := by
    simp [jsonAsString, h2]
  have hu : jsonAsULong env (env.deserializeJson st.configIncoming) "mqtt_publish_interval" = n := by
    have hn' : n < 4294967296 := hn
    simp [jsonAsULong, h3, hn']
  obtain ⟨-, r1, r2, r3⟩ := configRecord_reads s i n
  unfold applyConfig
  simp only [hs, hi, hu, store_after_puts s i n hn, r1, r2, r3, emit, rebuildTopics]

theorem processConfig_eq (env : Env) (fuel : Nat) (st : State) (s i : String) (n : Nat)
    (hwf : WellFormedConfig env st.configIncoming s i n) :
    processConfig env fuel st =
      reconnect env fuel
        { rebuildTopics { st with ID := i } with
          mqttServer := s
          mqtt_publish_interval := n
          updateInterval := toLong n
          configReceived := false
          configIncoming := ""
          configJson := env.deserializeJson st.configIncoming
          preferences := configRecord s i n
          connected := false
          trace := st.trace ++ [.disconnect] } := by
  unfold processConfig
  rw [applyConfig_eq env st s i n hwf]

/-- C1. Config apply. For every prior state whose pending config payload is
well formed with fields `server = s`, `ID = i`, `mqtt_publish_interval = n`:
whenever `processConfig` returns, (a) the durable store holds exactly the
marker, `server = s`, `id = i` and `autosend = n`; (b) the broker address, the
identity and the interval in memory are `s`, `i` and `n`; (c) the nine topic
names are those derived from `i`; (d) the pending config is cleared; (e) the
first thing done on the session is the disconnect, every connect attempt after
it is towards `s` under the client id `i`, and the session is connected at the
end. It does return as soon as one of the connect attempts allowed by the fuel
succeeds. -/
theorem processConfig_applies (env : Env) (fuel : Nat) (st : State) (s i : String) (n : Nat)
    (hwf : WellFormedConfig env st.configIncoming s i n) :
    (∀ st', processConfig env fuel st = some st' →
      st'.preferences =
        [("default", .str "no"), ("server", .str s), ("id", .str i), ("autosend", .ulong n)] ∧
      st'.mqttServer = s ∧ st'.ID = i ∧ st'.mqtt_publish_interval = n ∧
      topicsOf st' =
        ["lab/machines/" ++ i ++ "/CMD", "lab/machines/" ++ i ++ "/CONFIG",
         "lab/machines/" ++ i ++ "/DATA/raw", "lab/machines/" ++ i ++ "/DATA/value",
         "lab/machines/" ++ i ++ "/DATA/mode", "lab/machines/" ++ i ++ "/STATE/id",
         "lab/machines/" ++ i ++ "/STATE/IPAddr", "lab/machines/" ++ i ++ "/STATE/status",
         "lab/machines/" ++ i ++ "/STATE/config"] ∧
      st'.configReceived = false ∧ st'.configIncoming = "" ∧
      st'.connected = true ∧
      ∃ evs, added st st' = Event.disconnect :: evs ∧
        ∀ e ∈ connects evs, ∃ ok, e = Event.connect s 1883 i ok) ∧
    ((∃ k, k < fuel ∧ env.connectOk (st.nConnect + k) = true) →
      ∃ st', processConfig env fuel st = some st') := by
  rw [processConfig_eq env fuel st s i n hwf]
  constructor
  · intro st' hr
    obtain ⟨hcon, evs, ⟨doc, h, p, c, nq, nc, np, hst⟩, hev⟩ := reconnect_spec env fuel _ _ hr
    refine ⟨?_, ?_, ?_, ?_, ?_, ?_, ?_, hcon, evs, ?_, hev⟩
    · rw [hst]; rfl
    · rw [hst]
    · rw [hst]; rfl
    · rw [hst]
    · rw [hst]; rfl
    · rw [hst]
    · rw [hst]
    · rw [hst]
      simp [added]
  · intro hk
    exact reconnect_returns env fuel _ (Or.inr hk)

theorem processConfig_applies_witness :
    ∃ st', processConfig configEnv 1 pendingConfigState = some st' ∧
      st'.preferences =
        [("default", .str "no"), ("server", .str "b2"), ("id", .str "dev2"),
         ("autosend", .ulong 0)] ∧
      st'.ID = "dev2" := by
  have hw := processConfig_applies configEnv 1 pendingConfigState "b2" "dev2" 0
    ⟨by decide, by decide, by decide, by decide⟩
  obtain ⟨st', hst'⟩ := hw.2 ⟨0, by decide, rfl⟩
  exact ⟨st', hst', (hw.1 st' hst').1, (hw.1 st' hst').2.2.1⟩

/-! ## Restart -/

theorem setup_loads (env : Env) (st : State)
    (h : Preferences.getString st.preferences "default" "default" ≠ "default") :
    (setup env st).preferences = st.preferences ∧
    (setup env st).mqttServer = Preferences.getString st.preferences "server" "null" ∧
    (setup env st).ID = Preferences.getString st.preferences "id" "null" ∧
    (setup env st).mqtt_publish_interval = Preferences.getULong st.preferences "autosend" 0 ∧
    topicsOf (setup env st) = derivedTopics (setup env st).ID := by
  unfold setup
  simp [h, publishConfig, publish, emit, rebuildTopics, topicsOf, derivedTopics]

theorem setup_first_boot (env : Env) (st : State)
    (h : Preferences.getString st.preferences "default" "default" = "default") :
    (setup env st).preferences = configRecord "mqtt-s1.casafrog.com" "unconfigured" 5000 ∧
    (setup env st).mqttServer = "mqtt-s1.casafrog.com" ∧
    (setup env st).ID = "unconfigured" ∧
    (setup env st).mqtt_publish_interval = 5000 ∧
    topicsOf (setup env st) = derivedTopics (setup env st).ID := by
  obtain ⟨-, r1, r2, r3⟩ := configRecord_reads "mqtt-s1.casafrog.com" "unconfigured" 5000
  unfold setup
  simp only [h, if_true, store_after_puts "mqtt-s1.casafrog.com" "unconfigured" 5000 (by decide),
    r1, r2, r3]
  simp [publishConfig, publish, emit, rebuildTopics, topicsOf, derivedTopics]

theorem processConfig_store (env : Env) (fuel : Nat) (st st' : State) (s i : String) (n : Nat)
    (hwf : WellFormedConfig env st.configIncoming s i n)
    (hr : processConfig env fuel st = some st') : st'.preferences = configRecord s i n := by
  rw [processConfig_eq env fuel st s i n hwf] at hr
  obtain ⟨-, evs, ⟨doc, h, p, c, nq, nc, np, hst⟩, -⟩ := reconnect_spec env fuel _ _ hr
  rw [hst]

theorem connectAttempts_store (env : Env) :
    ∀ (k : Nat) (st : State), ((connectAttempt env)^[k] st).preferences = st.preferences := by
  intro k
  induction k with
  | zero => intro st; rfl
  | succ k ih =>
    intro st
    rw [Function.iterate_succ_apply', connectAttempt_eq]
    exact ih st

/-- C2. The configuration survives power loss. Once `processConfig` has written
the config `(s, i, n)`, the durable store holds exactly the marker, `s`, `i`
and `n`: right after the apply, after any number of connect attempts of the
reconnect that follows, whether or not one of them ever succeeds, and when
`processConfig` returns. A restart on that store (the globals at their initial
values, then `setup`) gives the broker address `s`, the identity `i`, the
interval `n` and the nine topic names derived from `i`, and leaves the store
as it was: the factory defaults are not applied again. In general `setup`
leaves alone a store that holds the marker and loads what it holds; it writes
the factory defaults into a store without the marker key; and it changes the
store only when the read of the marker falls back on its default. -/
theorem config_survives_restart (env env' : Env) (st : State) (s i : String) (n : Nat)
    (hwf : WellFormedConfig env st.configIncoming s i n) :
    (∀ k : Nat, ((connectAttempt env)^[k] (applyConfig env st)).preferences =
      [("default", .str "no"), ("server", .str s), ("id", .str i), ("autosend", .ulong n)]) ∧
    (∀ fuel st', processConfig env fuel st = some st' →
      st'.preferences =
        [("default", .str "no"), ("server", .str s), ("id", .str i), ("autosend", .ulong n)]) ∧
    (setup env' (boot (applyConfig env st).preferences)).mqttServer = s ∧
    (setup env' (boot (applyConfig env st).preferences)).ID = i ∧
    (setup env' (boot (applyConfig env st).preferences)).mqtt_publish_interval = n ∧
    topicsOf (setup env' (boot (applyConfig env st).preferences)) =
      ["lab/machines/" ++ i ++ "/CMD", "lab/machines/" ++ i ++ "/CONFIG",
       "lab/machines/" ++ i ++ "/DATA/raw", "lab/machines/" ++ i ++ "/DATA/value",
       "lab/machines/" ++ i ++ "/DATA/mode", "lab/machines/" ++ i ++ "/STATE/id",
       "lab/machines/" ++ i ++ "/STATE/IPAddr", "lab/machines/" ++ i ++ "/STATE/status",
       "lab/machines/" ++ i ++ "/STATE/config"] ∧
    (setup env' (boot (applyConfig env st).preferences)).preferences =
      (applyConfig env st).preferences ∧
    (∀ st₀ : State, st₀.preferences.lookup "default" = some (.str "no") →
      (setup env' st₀).preferences = st₀.preferences ∧
      (setup env' st₀).mqttServer = Preferences.getString st₀.preferences "server" "null" ∧
      (setup env' st₀).ID = Preferences.getString st₀.preferences "id" "null" ∧
      (setup env' st₀).mqtt_publish_interval =
        Preferences.getULong st₀.preferences "autosend" 0) ∧
    (∀ st₀ : State, st₀.preferences.lookup "default" = none →
      (setup env' st₀).preferences =
        [("default", .str "no"), ("server", .str "mqtt-s1.casafrog.com"),
         ("id", .str "unconfigured"), ("autosend", .ulong 5000)] ∧
      (setup env' st₀).mqttServer = "mqtt-s1.casafrog.com" ∧
      (setup env' st₀).ID = "unconfigured" ∧
      (setup env' st₀).mqtt_publish_interval = 5000) ∧
    (∀ st₀ : State, (setup env' st₀).preferences ≠ st₀.preferences →
      Preferences.getString st₀.preferences "default" "default" = "default") := by
  have hstore : (applyConfig env st).preferences = configRecord s i n := by
    rw [applyConfig_eq env st s i n hwf]
  obtain ⟨r0, r1, r2, r3⟩ := configRecord_reads s i n
  have hmark : Preferences.getString (boot (applyConfig env st).preferences).preferences
      "default" "default" ≠ "default" := by
    show Preferences.getString (applyConfig env st).preferences "default" "default" ≠ "default"
    rw [hstore, r0]
    decide
  obtain ⟨l0, l1, l2, l3, l4⟩ := setup_loads env' (boot (applyConfig env st).preferences) hmark
  have e1 : (boot (applyConfig env st).preferences).preferences = configRecord s i n := hstore
  rw [e1] at l1 l2 l3
  rw [r1] at l1
  rw [r2] at l2
  rw [r3] at l3
  refine ⟨?_, ?_, l1, l2, l3, ?_, l0, ?_, ?_, ?_⟩
  · intro k
    rw [connectAttempts_store env k, hstore]
    rfl
  · intro fuel st' hr
    rw [processConfig_store env fuel st st' s i n hwf hr]
    rfl
  · rw [l4, l2]
    rfl
  · intro st₀ h₀
    have hm : Preferences.getString st₀.preferences "default" "default" ≠ "default" := by
      simp [Preferences.getString, h₀]
    obtain ⟨a0, a1, a2, a3, -⟩ := setup_loads env' st₀ hm
    exact ⟨a0, a1, a2, a3⟩
  · intro st₀ h₀
    have hm : Preferences.getString st₀.preferences "default" "default" = "default" := by
      simp [Preferences.getString, h₀]
    obtain ⟨a0, a1, a2, a3, -⟩ := setup_first_boot env' st₀ hm
    exact ⟨a0, a1, a2, a3⟩
  · intro st₀ hne
    by_contra hm
    exact hne (setup_loads env' st₀ hm).1

theorem config_survives_restart_witness :
    ((connectAttempt deafBrokerEnv)^[3]
        (applyConfig deafBrokerEnv pendingConfigState)).preferences =
      [("default", .str "no"), ("server", .str "b2"), ("id", .str "dev2"),
       ("autosend", .ulong 0)] ∧
    (setup (benchEnv none)
        (boot (applyConfig deafBrokerEnv pendingConfigState).preferences)).mqttServer = "b2" ∧
    (setup (benchEnv none)
        (boot (applyConfig deafBrokerEnv pendingConfigState).preferences)).ID = "dev2" ∧
    (setup (benchEnv none)
        (boot (applyConfig deafBrokerEnv pendingConfigState).preferences)).mqtt_publish_interval
      = 0 ∧
    processConfig deafBrokerEnv 3 pendingConfigState = none := by
  have hwf : WellFormedConfig deafBrokerEnv pendingConfigState.configIncoming "b2" "dev2" 0 :=
    ⟨by decide, by decide, by decide, by decide⟩
  have hw := config_survives_restart deafBrokerEnv (benchEnv none) pendingConfigState
    "b2" "dev2" 0 hwf
  refine ⟨hw.1 3, hw.2.2.1, hw.2.2.2.1, hw.2.2.2.2.1, ?_⟩
  unfold processConfig
  apply reconnect_refused deafBrokerEnv (fun _ => rfl)
  rw [applyConfig_eq deafBrokerEnv pendingConfigState "b2" "dev2" 0 hwf]

/-! ## The controller tick -/

theorem callback_frame (topic payload : String) (st : State) :
    ∃ cr ci fr fi, callback topic payload st =
      { st with cmdReceived := cr, cmdIncoming := ci, configReceived := fr, configIncoming := fi } := by
  unfold callback
  by_cases h1 : topic = st.cmdTopic <;> by_cases h2 : topic = st.configTopic
  · exact ⟨true, payload, true, payload, by simp only [h1, if_true]; simp only [← h1, h2, if_true]⟩
  · exact ⟨true, payload, st.configReceived, st.configIncoming, by
      simp only [h1, if_true]; simp only [← h1, h2, if_false]⟩
  · exact ⟨st.cmdReceived, st.cmdIncoming, true, payload, by
      simp only [h1, if_false]; simp only [h2, if_true]⟩
  · exact ⟨st.cmdReceived, st.cmdIncoming, st.configReceived, st.configIncoming, by
      simp only [h1, if_false]; simp only [h2, if_false]⟩

theorem deliver_frame (frames : List (String × String)) :
    ∀ st : State, ∃ cr ci fr fi, frames.foldl (fun s f => callback f.1 f.2 s) st =
      { st with cmdReceived := cr, cmdIncoming := ci, configReceived := fr, configIncoming := fi } := by
  induction frames with
  | nil => exact fun st => ⟨st.cmdReceived, st.cmdIncoming, st.configReceived, st.configIncoming, rfl⟩
  | cons f fs ih =>
    intro st
    obtain ⟨cr, ci, fr, fi, h1⟩ := callback_frame f.1 f.2 st
    obtain ⟨cr', ci', fr', fi', h2⟩ := ih (callback f.1 f.2 st)
    refine ⟨cr', ci', fr', fi', ?_⟩
    rw [List.foldl_cons, h2, h1]

theorem clientLoop_frame (env : Env) (st : State) :
    ∃ c cr ci fr fi, clientLoop env st =
      { st with
        connected := c, nLoop := st.nLoop + 1,
        cmdReceived := cr, cmdIncoming := ci, configReceived := fr, configIncoming := fi } := by
  unfold clientLoop
  obtain ⟨cr, ci, fr, fi, h⟩ := deliver_frame (env.inbound st.nLoop)
    (if env.linkLost st.nLoop = true then
      { st with nLoop := st.nLoop + 1, connected := false }
    else { st with nLoop := st.nLoop + 1 })
  by_cases hl : env.linkLost st.nLoop = true
  · refine ⟨false, cr, ci, fr, fi, ?_⟩
    simp only [hl, if_true] at h ⊢
    rw [h]
  · refine ⟨st.connected, cr, ci, fr, fi, ?_⟩
    simp only [hl, Bool.false_eq_true, if_false] at h ⊢
    rw [h]

theorem deliver_quiet (frames : List (String × String)) (st : State)
    (h : ∀ f ∈ frames, f.1 ≠ st.cmdTopic ∧ f.1 ≠ st.configTopic) :
    frames.foldl (fun s f => callback f.1 f.2 s) st = st := by
  induction frames with
  | nil => rfl
  | cons f fs ih =>
    have hf := h f (List.mem_cons_self f fs)
    have hc : callback f.1 f.2 st = st := by simp [callback, hf.1, hf.2]
    rw [List.foldl_cons, hc]
    exact ih (fun g hg => h g (List.mem_cons_of_mem f hg))

theorem clientLoop_quiet (env : Env) (st : State) (h : QuietAt env st st.nLoop) :
    clientLoop env st = { st with nLoop := st.nLoop + 1 } := by
  unfold clientLoop
  simp only [h.1, Bool.false_eq_true, if_false]
  exact deliver_quiet _ _ h.2

theorem loop_idle (env : Env) (fuel : Nat) (st : State) (hcon : st.connected = true)
    (hcmd : st.cmdReceived = false) (hcfg : st.configReceived = false) :
    loop env fuel st = some (clientLoop env (autoReport env st)) := by
  simp [loop, hcon, hcmd, hcfg]

theorem autoReport_off (env : Env) (st : State) (h : st.mqtt_publish_interval = 0) :
    autoReport env st = st := by
  simp [autoReport, h]

theorem ticks_off (env : Env) (fuel : Nat) :
    ∀ (k : Nat) (st : State), st.mqtt_publish_interval = 0 → st.connected = true →
      st.cmdReceived = false → st.configReceived = false →
      (∀ j, j < k → QuietAt env st (st.nLoop + j)) →
      ticks env fuel k st = some { st with nLoop := st.nLoop + k } := by
  intro k
  induction k with
  | zero => intro st _ _ _ _ _; rfl
  | succ k ih =>
    intro st hint hcon hcmd hcfg hq
    have h0 : QuietAt env st st.nLoop := by simpa using hq 0 (Nat.succ_pos k)
    rw [ticks, loop_idle env fuel st hcon hcmd hcfg, autoReport_off env st hint,
      clientLoop_quiet env st h0, Option.some_bind,
      ih { st with nLoop := st.nLoop + 1 } hint hcon hcmd hcfg]
    · simp only [Option.some.injEq]
      have : st.nLoop + 1 + k = st.nLoop + (k + 1) := by omega
      rw [this]
    · intro j hj
      have := hq (j + 1) (by omega)
      have e : st.nLoop + 1 + j = st.nLoop + (j + 1) := by omega
      simpa [QuietAt, e] using this

/-- C7. Auto-report disabled. In a state with interval 0, the session up and
nothing pending, one controller tick returns, writes nothing to the
instrument, publishes nothing (it appends nothing at all to the trace) and
leaves the countdown, the configuration, the topic names and the durable store
as they were, whatever the countdown is. Hence any number of ticks in which
the session stays up and no command or config arrives leaves the state as it
was, apart from the count of `client.loop()` calls: no report ever fires. -/
theorem autoReport_disabled (env : Env) (fuel : Nat) (st : State)
    (hint : st.mqtt_publish_interval = 0) (hcon : st.connected = true)
    (hcmd : st.cmdReceived = false) (hcfg : st.configReceived = false) :
    (∃ st', loop env fuel st = some st' ∧
      added st st' = [] ∧ st'.trace = st.trace ∧
      st'.updateInterval = st.updateInterval ∧
      st'.mqtt_publish_interval = 0 ∧ st'.mqttServer = st.mqttServer ∧ st'.ID = st.ID ∧
      topicsOf st' = topicsOf st ∧ st'.preferences = st.preferences) ∧
    (∀ k : Nat, (∀ j, j < k → QuietAt env st (st.nLoop + j)) →
      ticks env fuel k st = some { st with nLoop := st.nLoop + k }) := by
  constructor
  · obtain ⟨c, cr, ci, fr, fi, h⟩ := clientLoop_frame env st
    refine ⟨clientLoop env st, ?_, ?_⟩
    · rw [loop_idle env fuel st hcon hcmd hcfg, autoReport_off env st hint]
    · rw [h]
      simp [added, topicsOf, hint]
  · intro k hq
    exact ticks_off env fuel k st hint hcon hcmd hcfg hq

theorem autoReport_disabled_witness :
    ticks (benchEnv none) 0 3 offState = some { offState with nLoop := offState.nLoop + 3 } :=
  (autoReport_disabled (benchEnv none) 0 offState rfl rfl rfl rfl).2 3
    (fun _ _ => ⟨rfl, fun _ hf => absurd hf (List.not_mem_nil _)⟩)

/-! ## Auto-report cadence -/

end DvmBridge
